import Mathlib

set_option maxHeartbeats 2000000

/-!
Shallow embedding of `src/src-tauri/src/cloud_transcription/openai.rs`
(the OpenAI Whisper transcription client of the Handy repository).

Modelling conventions:
* Rust `f32` audio samples and the configuration temperature are modelled by
  exact rationals `ℚ`; the clamp/scale/truncate pipeline of
  `audio_samples_to_wav_bytes` uses only operations that are exact in IEEE
  `f32` on the concrete inputs examined below.
* Bytes are `ℕ` values, reduced modulo 2^8 / 2^16 / 2^32 where the source
  writes fixed-width machine integers.
* `anyhow::Result<T>` becomes `Except String T`, carrying the exact message
  strings of the source.
* The `Arc<Mutex<OpenAIConfiguration>>` shared state is modelled by the held
  configuration value; locking is a copy (`snapshot`) or a replacement
  (`update_config`), mirroring how the source only ever holds the lock for a
  clone or a whole-struct assignment.
* The network is an oracle parameter: `transcribe` receives a function
  `respond` standing for the provider, and `validate_api_key` receives the
  outcome of the models-list call.  A trace of `RunStep`s records which
  externally visible steps (audio encoding, network call) a run performed.
-/

/-- Configuration for the OpenAI Whisper API, from `OpenAIConfiguration`
(openai.rs lines 17-24). -/
structure OpenAIConfiguration where
  api_key : String
  model : String
  language : Option String
  temperature : ℚ
  prompt : Option String
deriving DecidableEq, Repr

/-- The `Default` impl of `OpenAIConfiguration` (openai.rs lines 26-36). -/
def OpenAIConfiguration.default : OpenAIConfiguration :=
  ⟨"", "whisper-1", none, 0, none⟩

/-- The client state: the configuration behind the `Arc<Mutex<_>>`
(openai.rs lines 39-43).  The `async_openai` connection handle carries no
state observable by the claims and is omitted. -/
structure OpenAIClient where
  config : OpenAIConfiguration
deriving DecidableEq, Repr

/-- `OpenAIClient::new` (openai.rs lines 47-62): rejects an empty key,
otherwise stores the key in an otherwise-default configuration. -/
def OpenAIClient.new (api_key : String) : Except String OpenAIClient :=
  if api_key.isEmpty then
    Except.error "OpenAI API key is required"
  else
    Except.ok ⟨⟨api_key, "whisper-1", none, 0, none⟩⟩

/-- `OpenAIClient::update_config` (openai.rs lines 65-68): whole-struct
replacement of the shared configuration. -/
def OpenAIClient.update_config (_c : OpenAIClient) (config : OpenAIConfiguration) :
    OpenAIClient :=
  ⟨config⟩

/-- The configuration snapshot `self.config.lock().await.clone()` taken at the
top of `transcribe` and `validate_api_key` (openai.rs lines 105, 164). -/
def OpenAIClient.snapshot (c : OpenAIClient) : OpenAIConfiguration :=
  c.config

/-- Rust `f32::clamp(-1.0, 1.0)` (openai.rs line 87), over exact rationals. -/
def clampQ (x : ℚ) : ℚ :=
  min (max x (-1)) 1

/-- Truncation toward zero, the semantics of Rust `as i16` on an in-range
float value. -/
def ratTrunc (q : ℚ) : ℤ :=
  if 0 ≤ q then ⌊q⌋ else ⌈q⌉

/-- The per-sample conversion `(sample.clamp(-1.0, 1.0) * i16::MAX as f32) as i16`
(openai.rs lines 87-88): clamp, scale by 32767, truncate toward zero. -/
def sampleToI16 (x : ℚ) : ℤ :=
  ratTrunc (clampQ x * 32767)

/-- Modelled from the spec: the conversion the spec sentence describes,
"the nearest representable signed 16-bit integer" after clamping and
scaling by the maximum positive 16-bit value — rounding to nearest rather
than the truncation the source performs. -/
def specNearestI16 (x : ℚ) : ℤ :=
  round (clampQ x * 32767)

/-- Little-endian bytes of a 16-bit two's-complement integer. -/
def i16le (v : ℤ) : List ℕ :=
  [(Int.emod v 65536).toNat % 256, (Int.emod v 65536).toNat / 256]

/-- Little-endian bytes of a 16-bit unsigned field. -/
def u16le (n : ℕ) : List ℕ :=
  [n % 256, n / 256 % 256]

/-- Little-endian bytes of a 32-bit unsigned field. -/
def u32le (n : ℕ) : List ℕ :=
  [n % 256, n / 256 % 256, n / 65536 % 256, n / 16777216 % 256]

/-- The sample payload: each converted sample as two little-endian bytes, in
encounter order. -/
def samplesBytes : List ℤ → List ℕ
  | [] => []
  | s :: rest => i16le s ++ samplesBytes rest

/-- Modelled from the spec: the byte output of the external `hound`
`WavWriter` (not part of this repository) for the fixed
`WavSpec { channels: 1, sample_rate: 16000, bits_per_sample: 16, Int }` of
openai.rs lines 73-78, following the little-endian container layout of
spec §6: "RIFF", total−8, "WAVE", "fmt ", 16, PCM=1, 1 channel, 16000 Hz,
byte rate 32000, block align 2, 16 bits, "data", 2·count, then the
samples. -/
def wavBytes (samples : List ℤ) : List ℕ :=
  let dataSize := (2 * samples.length) % 4294967296
  [82, 73, 70, 70] ++ u32le (36 + dataSize) ++
  [87, 65, 86, 69] ++
  [102, 109, 116, 32] ++ u32le 16 ++
  u16le 1 ++ u16le 1 ++ u32le 16000 ++ u32le 32000 ++ u16le 2 ++ u16le 16 ++
  [100, 97, 116, 97] ++ u32le dataSize ++
  samplesBytes samples

/-- `OpenAIClient::audio_samples_to_wav_bytes` (openai.rs lines 72-96):
writes every converted sample into an in-memory WAV container; the in-memory
cursor never fails, so the result is always `ok`. -/
def OpenAIClient.audio_samples_to_wav_bytes (_c : OpenAIClient)
    (samples : List ℚ) : Except String (List ℕ) :=
  Except.ok (wavBytes (samples.map sampleToI16))

/-- Read a 16-bit little-endian field at a byte offset. -/
def readU16le (bytes : List ℕ) (off : ℕ) : ℕ :=
  bytes.getD off 0 + 256 * bytes.getD (off + 1) 0

/-- Read a 32-bit little-endian field at a byte offset. -/
def readU32le (bytes : List ℕ) (off : ℕ) : ℕ :=
  bytes.getD off 0 + 256 * bytes.getD (off + 1) 0 +
  65536 * bytes.getD (off + 2) 0 + 16777216 * bytes.getD (off + 3) 0

/-- The `async_openai` response-format enum `AudioResponseFormat`
referenced at openai.rs line 124. -/
inductive AudioResponseFormat where
  | json
  | text
  | srt
  | verboseJson
  | vtt
deriving DecidableEq, Repr

/-- The `AudioInput::Bytes` attachment of openai.rs lines 120-123. -/
structure AudioInputBytes where
  data : List ℕ
  file_name : String
deriving DecidableEq, Repr

/-- The transcription request assembled by the builder calls of openai.rs
lines 116-143: model, file attachment, response format, optional language,
optional prompt, temperature. -/
structure CreateTranscriptionRequest where
  model : String
  file : AudioInputBytes
  response_format : AudioResponseFormat
  language : Option String
  prompt : Option String
  temperature : ℚ
deriving DecidableEq, Repr

/-- The provider response; `transcribe` reads its `text` field
(openai.rs line 159). -/
structure TranscriptionResponse where
  text : String
deriving DecidableEq, Repr

/-- Externally visible steps of a `transcribe` / `validate_api_key` run,
recorded in order. -/
inductive RunStep where
  | encodeAudio
  | networkCall
deriving DecidableEq, Repr

/-- The request a `transcribe` call with the given samples and per-call
language sends, as assembled at openai.rs lines 116-143 from the
configuration snapshot: the WAV bytes attached as "audio.wav", response
format `Json`, the per-call language if present else the configured one,
the configured prompt, the configured temperature. -/
def OpenAIClient.transcribeRequest (c : OpenAIClient) (audio_samples : List ℚ)
    (language : Option String) : CreateTranscriptionRequest :=
  ⟨c.config.model,
   ⟨wavBytes (audio_samples.map sampleToI16), "audio.wav"⟩,
   AudioResponseFormat.json,
   (match language with
    | some lang => some lang
    | none => c.config.language),
   c.config.prompt,
   c.config.temperature⟩

/-- `OpenAIClient::transcribe` (openai.rs lines 99-160).  `respond` is the
provider: the network call `create_transcription`.  Control flow as in the
source: snapshot the configuration, fail if the key is empty, encode the
audio, build the request, send it, return the response text.  The second
component is the trace of externally visible steps the run performed. -/
def OpenAIClient.transcribe (c : OpenAIClient)
    (respond : CreateTranscriptionRequest → Except String TranscriptionResponse)
    (audio_samples : List ℚ) (language : Option String)
    (_translate_to_english : Bool) :
    Except String String × List RunStep :=
  let config := c.snapshot
  if config.api_key.isEmpty then
    (Except.error "OpenAI API key is not configured", [])
  else
    match c.audio_samples_to_wav_bytes audio_samples with
    | Except.error e => (Except.error e, [RunStep.encodeAudio])
    | Except.ok wav_bytes =>
      let request : CreateTranscriptionRequest :=
        ⟨config.model,
         ⟨wav_bytes, "audio.wav"⟩,
         AudioResponseFormat.json,
         (match language with
          | some lang => some lang
          | none => config.language),
         config.prompt,
         config.temperature⟩
      match respond request with
      | Except.error e =>
          (Except.error (String.append "OpenAI API error: " e),
           [RunStep.encodeAudio, RunStep.networkCall])
      | Except.ok response =>
          (Except.ok response.text,
           [RunStep.encodeAudio, RunStep.networkCall])

/-- `OpenAIClient::validate_api_key` (openai.rs lines 163-182).
`listModels` is the outcome of the `models().list()` network call. -/
def OpenAIClient.validate_api_key (c : OpenAIClient)
    (listModels : Except String Unit) : Except String Unit × List RunStep :=
  let config := c.snapshot
  if config.api_key.isEmpty then
    (Except.error "OpenAI API key is empty", [])
  else
    match listModels with
    | Except.ok _ => (Except.ok (), [RunStep.networkCall])
    | Except.error e =>
        (Except.error (String.append "Invalid API key: " e), [RunStep.networkCall])

lemma samplesBytes_length (l : List ℤ) : (samplesBytes l).length = 2 * l.length := by
  induction l with
  | nil => rfl
  | cons s rest ih =>
    simp [samplesBytes, i16le, ih]
    omega

lemma wavBytes_length (l : List ℤ) : (wavBytes l).length = 44 + 2 * l.length := by
  simp [wavBytes, u16le, u32le, samplesBytes_length]
  omega

lemma wavBytes_riff (l : List ℤ) : (wavBytes l).take 4 = [82, 73, 70, 70] := rfl

lemma wavBytes_wave (l : List ℤ) : ((wavBytes l).drop 8).take 4 = [87, 65, 86, 69] := rfl

lemma wavBytes_fmt (l : List ℤ) : ((wavBytes l).drop 12).take 4 = [102, 109, 116, 32] := rfl

lemma wavBytes_audio_format (l : List ℤ) : readU16le (wavBytes l) 20 = 1 := rfl

lemma wavBytes_channels (l : List ℤ) : readU16le (wavBytes l) 22 = 1 := rfl

lemma wavBytes_sample_rate (l : List ℤ) : readU32le (wavBytes l) 24 = 16000 := rfl

lemma wavBytes_bits_per_sample (l : List ℤ) : readU16le (wavBytes l) 34 = 16 := rfl

lemma wavBytes_data_magic (l : List ℤ) : ((wavBytes l).drop 36).take 4 = [100, 97, 116, 97] := rfl

lemma wavBytes_payload (l : List ℤ) : (wavBytes l).drop 44 = samplesBytes l := rfl

lemma readU32le_wavBytes_dataSize (l : List ℤ) :
    readU32le (wavBytes l) 40 = 2 * l.length % 4294967296 := by
  show 2 * l.length % 4294967296 % 256 +
      256 * (2 * l.length % 4294967296 / 256 % 256) +
      65536 * (2 * l.length % 4294967296 / 65536 % 256) +
      16777216 * (2 * l.length % 4294967296 / 16777216 % 256) =
      2 * l.length % 4294967296
  omega

example : sampleToI16 0 = 0 := by
  norm_num [sampleToI16, ratTrunc, clampQ, min_def, max_def]
example : sampleToI16 1 = 32767 := by
  norm_num [sampleToI16, ratTrunc, clampQ, min_def, max_def]
example : sampleToI16 (1/4) = 8191 := by
  norm_num [sampleToI16, ratTrunc, clampQ, min_def, max_def]
example : sampleToI16 (-2) = -32767 := by
  norm_num [sampleToI16, ratTrunc, clampQ, min_def, max_def, Int.ceil_neg]
example : (wavBytes []).length = 44 := by decide
example : readU32le (wavBytes []) 40 = 0 := by decide
example : readU32le (wavBytes (List.replicate 3 0)) 40 = 6 := by decide
example : (wavBytes []).take 4 = [82, 73, 70, 70] := by decide

/-- Characterization of `transcribe`: an empty-key snapshot fails before any
step; otherwise the run encodes the audio, sends `transcribeRequest` to the
provider, and maps the outcome as at openai.rs lines 149-159. -/
lemma transcribe_characterization (c : OpenAIClient)
    (respond : CreateTranscriptionRequest → Except String TranscriptionResponse)
    (audio_samples : List ℚ) (language : Option String)
    (translate_to_english : Bool) :
    c.transcribe respond audio_samples language translate_to_english =
      if c.config.api_key.isEmpty then
        (Except.error "OpenAI API key is not configured", [])
      else
        match respond (c.transcribeRequest audio_samples language) with
        | Except.error e =>
            (Except.error (String.append "OpenAI API error: " e),
             [RunStep.encodeAudio, RunStep.networkCall])
        | Except.ok response =>
            (Except.ok response.text,
             [RunStep.encodeAudio, RunStep.networkCall]) := by
  by_cases h : c.config.api_key.isEmpty <;>
    simp [OpenAIClient.transcribe, OpenAIClient.snapshot,
      OpenAIClient.audio_samples_to_wav_bytes, OpenAIClient.transcribeRequest, h]

/-- Characterization of `validate_api_key`: an empty-key snapshot fails
before the network call; otherwise the models-list outcome is mapped as at
openai.rs lines 172-181. -/
lemma validate_characterization (c : OpenAIClient)
    (listModels : Except String Unit) :
    c.validate_api_key listModels =
      if c.config.api_key.isEmpty then
        (Except.error "OpenAI API key is empty", [])
      else
        match listModels with
        | Except.ok _ => (Except.ok (), [RunStep.networkCall])
        | Except.error e =>
            (Except.error (String.append "Invalid API key: " e),
             [RunStep.networkCall]) := by
  by_cases h : c.config.api_key.isEmpty <;>
    simp [OpenAIClient.validate_api_key, OpenAIClient.snapshot, h]

/-- C2: for every finite sample sequence, the encoder output follows the
little-endian layout of spec §6 — "RIFF" at 0, "WAVE" at 8, "fmt " at 12,
audio format 1 (integer PCM) at 20, 1 channel at 22, 16000 Hz at 24,
16 bits per sample at 34, "data" at 36 followed by data size =
sample count × 2 at 40, total length ≥ 44, and the converted samples in
encounter order from byte 44. -/
theorem wav_output_layout (c : OpenAIClient) (samples : List ℚ) (bytes : List ℕ)
    (h : c.audio_samples_to_wav_bytes samples = Except.ok bytes)
    (hsize : 2 * samples.length < 4294967296) :
    bytes.take 4 = [82, 73, 70, 70] ∧
    (bytes.drop 8).take 4 = [87, 65, 86, 69] ∧
    (bytes.drop 12).take 4 = [102, 109, 116, 32] ∧
    readU16le bytes 20 = 1 ∧
    readU16le bytes 22 = 1 ∧
    readU32le bytes 24 = 16000 ∧
    readU16le bytes 34 = 16 ∧
    (bytes.drop 36).take 4 = [100, 97, 116, 97] ∧
    readU32le bytes 40 = 2 * samples.length ∧
    44 ≤ bytes.length ∧
    bytes.drop 44 = samplesBytes (samples.map sampleToI16) := by
  simp only [OpenAIClient.audio_samples_to_wav_bytes, Except.ok.injEq] at h
  subst h
  refine ⟨wavBytes_riff _, wavBytes_wave _, wavBytes_fmt _, wavBytes_audio_format _,
    wavBytes_channels _, wavBytes_sample_rate _, wavBytes_bits_per_sample _,
    wavBytes_data_magic _, ?_, ?_, wavBytes_payload _⟩
  · rw [readU32le_wavBytes_dataSize, List.length_map]
    omega
  · rw [wavBytes_length]
    omega

/-- C2 witness: the layout theorem applied to the empty sample sequence on a
concrete client. -/
theorem wav_output_layout_witness :
    (OpenAIClient.mk ⟨"k", "whisper-1", none, 0, none⟩).audio_samples_to_wav_bytes [] =
        Except.ok (wavBytes []) ∧
    2 * ([] : List ℚ).length < 4294967296 ∧
    ((wavBytes []).take 4 = [82, 73, 70, 70] ∧
     ((wavBytes []).drop 8).take 4 = [87, 65, 86, 69] ∧
     ((wavBytes []).drop 12).take 4 = [102, 109, 116, 32] ∧
     readU16le (wavBytes []) 20 = 1 ∧
     readU16le (wavBytes []) 22 = 1 ∧
     readU32le (wavBytes []) 24 = 16000 ∧
     readU16le (wavBytes []) 34 = 16 ∧
     ((wavBytes []).drop 36).take 4 = [100, 97, 116, 97] ∧
     readU32le (wavBytes []) 40 = 2 * ([] : List ℚ).length ∧
     44 ≤ (wavBytes []).length ∧
     (wavBytes []).drop 44 = samplesBytes (([] : List ℚ).map sampleToI16)) :=
  ⟨rfl, by decide,
   wav_output_layout (OpenAIClient.mk ⟨"k", "whisper-1", none, 0, none⟩) [] (wavBytes []) rfl (by decide)⟩

/-- C3: the audio encoder always returns a successful result, and on the
empty sequence it returns exactly the 44-byte header-only container whose
data size field is 0. -/
theorem wav_encode_total_and_empty_header (c : OpenAIClient) (samples : List ℚ) :
    (∃ bytes, c.audio_samples_to_wav_bytes samples = Except.ok bytes) ∧
    c.audio_samples_to_wav_bytes [] = Except.ok (wavBytes []) ∧
    (wavBytes []).length = 44 ∧
    readU32le (wavBytes []) 40 = 0 :=
  ⟨⟨wavBytes (samples.map sampleToI16), rfl⟩, rfl, by decide, by decide⟩

/-- C1 (amended): every request built by `transcribe` carries response
format `Json` — the format that returns only the transcribed text, with no
timestamps or segments (those would be `VerboseJson`, `Srt`, `Vtt`). -/
theorem transcribeRequest_response_format_is_json (c : OpenAIClient)
    (audio_samples : List ℚ) (language : Option String) :
    (c.transcribeRequest audio_samples language).response_format =
      AudioResponseFormat.json :=
  rfl

/-- C1 counterexample: on a concrete `transcribe` call the request's
response format is `Json`, not the plain-text format the claim asserts. -/
theorem transcribeRequest_format_not_text_at_concrete_call :
    ((OpenAIClient.mk ⟨"k", "whisper-1", none, 0, none⟩).transcribeRequest [] none).response_format =
        AudioResponseFormat.json ∧
    ((OpenAIClient.mk ⟨"k", "whisper-1", none, 0, none⟩).transcribeRequest [] none).response_format ≠
        AudioResponseFormat.text :=
  ⟨rfl, by decide⟩

/-- C5: constructing a client with an empty credential fails with the
configuration error, at construction; any non-empty credential succeeds and
the client holds that key in an otherwise-default configuration. -/
theorem new_client_empty_key_rejected :
    OpenAIClient.new "" = Except.error "OpenAI API key is required" ∧
    ∀ api_key : String, api_key.isEmpty = false →
      OpenAIClient.new api_key =
        Except.ok (OpenAIClient.mk ⟨api_key, "whisper-1", none, 0, none⟩) := by
  refine ⟨rfl, ?_⟩
  intro k hk
  simp [OpenAIClient.new, hk]

/-- C5 witness: the constructor theorem applied to the concrete non-empty
key "abc". -/
theorem new_client_empty_key_rejected_witness :
    ("abc" : String).isEmpty = false ∧
    OpenAIClient.new "abc" =
      Except.ok (OpenAIClient.mk ⟨"abc", "whisper-1", none, 0, none⟩) :=
  ⟨rfl, new_client_empty_key_rejected.2 "abc" rfl⟩

/-- C6: when the configuration snapshot has an empty credential,
`transcribe` fails with the configuration error and its trace is empty: the
audio was not encoded and no network call was issued. -/
theorem transcribe_empty_key_fails_early (c : OpenAIClient)
    (respond : CreateTranscriptionRequest → Except String TranscriptionResponse)
    (audio_samples : List ℚ) (language : Option String)
    (translate_to_english : Bool)
    (h : c.config.api_key.isEmpty = true) :
    c.transcribe respond audio_samples language translate_to_english =
      (Except.error "OpenAI API key is not configured", []) := by
  rw [transcribe_characterization, if_pos h]

/-- C6 witness: the early-failure theorem applied to a concrete client whose
configuration holds an empty key. -/
theorem transcribe_empty_key_fails_early_witness :
    ((OpenAIClient.mk ⟨"", "whisper-1", none, 0, none⟩).config.api_key.isEmpty = true) ∧
    (OpenAIClient.mk ⟨"", "whisper-1", none, 0, none⟩).transcribe
        (fun _ => Except.ok ⟨"t"⟩) [] none false =
      (Except.error "OpenAI API key is not configured", []) :=
  ⟨rfl,
   transcribe_empty_key_fails_early (OpenAIClient.mk ⟨"", "whisper-1", none, 0, none⟩)
     (fun _ => Except.ok ⟨"t"⟩) [] none false rfl⟩

/-- C7: the per-call language override takes precedence over the configured
language, which is used exactly when no override is given (so the field is
unset when both are absent); the prompt field always equals the configured
prompt (included iff configured); the temperature always equals the
configured temperature. -/
theorem transcribeRequest_language_precedence_prompt_temperature
    (c : OpenAIClient) (audio_samples : List ℚ) (lang : String) :
    (c.transcribeRequest audio_samples (some lang)).language = some lang ∧
    (c.transcribeRequest audio_samples none).language = c.config.language ∧
    (∀ language : Option String,
      (c.transcribeRequest audio_samples language).prompt = c.config.prompt) ∧
    (∀ language : Option String,
      (c.transcribeRequest audio_samples language).temperature = c.config.temperature) :=
  ⟨rfl, rfl, fun _ => rfl, fun _ => rfl⟩

/-- C8: updating the configuration and immediately reading a snapshot
returns exactly the updated configuration, field by field. -/
theorem update_config_snapshot_exact (c : OpenAIClient)
    (config : OpenAIConfiguration) :
    (c.update_config config).snapshot = config ∧
    ((c.update_config config).snapshot).api_key = config.api_key ∧
    ((c.update_config config).snapshot).model = config.model ∧
    ((c.update_config config).snapshot).language = config.language ∧
    ((c.update_config config).snapshot).temperature = config.temperature ∧
    ((c.update_config config).snapshot).prompt = config.prompt :=
  ⟨rfl, rfl, rfl, rfl, rfl, rfl⟩

/-- C9: whenever `transcribe` succeeds, the string it returns is the `text`
field of the provider response to the request it sent, verbatim. -/
theorem transcribe_returns_provider_text_verbatim (c : OpenAIClient)
    (respond : CreateTranscriptionRequest → Except String TranscriptionResponse)
    (audio_samples : List ℚ) (language : Option String)
    (translate_to_english : Bool) (t : String)
    (h : (c.transcribe respond audio_samples language translate_to_english).1 =
      Except.ok t) :
    ∃ response : TranscriptionResponse,
      respond (c.transcribeRequest audio_samples language) = Except.ok response ∧
      response.text = t := by
  rw [transcribe_characterization] at h
  by_cases hk : c.config.api_key.isEmpty
  · rw [if_pos hk] at h
    exact absurd h (by simp)
  · rw [if_neg hk] at h
    cases hr : respond (c.transcribeRequest audio_samples language) with
    | error e =>
      rw [hr] at h
      exact absurd h (by simp)
    | ok response =>
      rw [hr] at h
      refine ⟨response, rfl, ?_⟩
      injection h

/-- C9 witness: the verbatim theorem applied to a concrete call whose
provider answers "hello". -/
theorem transcribe_returns_provider_text_verbatim_witness :
    ((OpenAIClient.mk ⟨"k", "whisper-1", none, 0, none⟩).transcribe
        (fun _ => Except.ok ⟨"hello"⟩) [] none false).1 = Except.ok "hello" ∧
    ∃ response : TranscriptionResponse,
      (fun _ : CreateTranscriptionRequest => Except.ok (ε := String) (TranscriptionResponse.mk "hello"))
          ((OpenAIClient.mk ⟨"k", "whisper-1", none, 0, none⟩).transcribeRequest [] none) =
        Except.ok response ∧
      response.text = "hello" :=
  ⟨rfl,
   transcribe_returns_provider_text_verbatim
     (OpenAIClient.mk ⟨"k", "whisper-1", none, 0, none⟩)
     (fun _ => Except.ok ⟨"hello"⟩) [] none false "hello" rfl⟩

/-- C10: `update_config` accepts a configuration with an empty credential
without error (the snapshot then holds exactly that configuration), and
afterwards both `transcribe` and `validate_api_key` fail with their
configuration errors with an empty trace — before any network call. -/
theorem update_config_allows_empty_key_then_calls_fail (c : OpenAIClient)
    (config : OpenAIConfiguration)
    (respond : CreateTranscriptionRequest → Except String TranscriptionResponse)
    (listModels : Except String Unit)
    (audio_samples : List ℚ) (language : Option String)
    (translate_to_english : Bool)
    (h : config.api_key.isEmpty = true) :
    (c.update_config config).snapshot = config ∧
    (c.update_config config).transcribe respond audio_samples language translate_to_english =
      (Except.error "OpenAI API key is not configured", []) ∧
    (c.update_config config).validate_api_key listModels =
      (Except.error "OpenAI API key is empty", []) := by
  have h2 : (c.update_config config).config.api_key.isEmpty = true := h
  refine ⟨rfl, ?_, ?_⟩
  · rw [transcribe_characterization, if_pos h2]
  · rw [validate_characterization, if_pos h2]

/-- C10 witness: the theorem applied to a concrete client updated with a
concrete empty-credential configuration. -/
theorem update_config_allows_empty_key_then_calls_fail_witness :
    (OpenAIConfiguration.mk "" "whisper-1" none 0 none).api_key.isEmpty = true ∧
    ((OpenAIClient.mk ⟨"k", "whisper-1", none, 0, none⟩).update_config
        (OpenAIConfiguration.mk "" "whisper-1" none 0 none)).snapshot =
      OpenAIConfiguration.mk "" "whisper-1" none 0 none ∧
    ((OpenAIClient.mk ⟨"k", "whisper-1", none, 0, none⟩).update_config
        (OpenAIConfiguration.mk "" "whisper-1" none 0 none)).transcribe
        (fun _ => Except.ok ⟨"t"⟩) [] none false =
      (Except.error "OpenAI API key is not configured", []) ∧
    ((OpenAIClient.mk ⟨"k", "whisper-1", none, 0, none⟩).update_config
        (OpenAIConfiguration.mk "" "whisper-1" none 0 none)).validate_api_key
        (Except.ok ()) =
      (Except.error "OpenAI API key is empty", []) :=
  ⟨rfl,
   update_config_allows_empty_key_then_calls_fail
     (OpenAIClient.mk ⟨"k", "whisper-1", none, 0, none⟩)
     (OpenAIConfiguration.mk "" "whisper-1" none 0 none)
     (fun _ => Except.ok ⟨"t"⟩) (Except.ok ()) [] none false rfl⟩

lemma clampQ_le_one (x : ℚ) : clampQ x ≤ 1 := min_le_right _ _

lemma neg_one_le_clampQ (x : ℚ) : -1 ≤ clampQ x :=
  le_min (le_max_right _ _) (by norm_num)

/-- C4 (amended): each sample is clamped to [-1, 1] — out-of-range inputs
are clamped, never rejected, with every input ≥ 1 mapped to 32767 and every
input ≤ -1 mapped to -32767 — then scaled by 32767 and truncated toward
zero to a signed 16-bit integer: the result is always within
[-32767, 32767], differs from the scaled clamp by less than 1, and is never
larger in magnitude than the scaled clamp (truncation toward zero, not
rounding to nearest). -/
theorem sampleToI16_clamp_truncate (x : ℚ) :
    (-32767 ≤ sampleToI16 x ∧ sampleToI16 x ≤ 32767) ∧
    (1 ≤ x → sampleToI16 x = 32767) ∧
    (x ≤ -1 → sampleToI16 x = -32767) ∧
    |(sampleToI16 x : ℚ) - clampQ x * 32767| < 1 ∧
    |(sampleToI16 x : ℚ)| ≤ |clampQ x * 32767| := by
  have h1 : clampQ x ≤ 1 := clampQ_le_one x
  have h2 : -1 ≤ clampQ x := neg_one_le_clampQ x
  have hy1 : clampQ x * 32767 ≤ 32767 := by nlinarith
  have hy2 : -32767 ≤ clampQ x * 32767 := by nlinarith
  have hcase1 : 1 ≤ x → sampleToI16 x = 32767 := by
    intro hx
    have hcl : clampQ x = 1 := by
      rw [clampQ, max_eq_left (by linarith : (-1 : ℚ) ≤ x), min_eq_right hx]
    show ratTrunc (clampQ x * 32767) = 32767
    rw [hcl]
    norm_num [ratTrunc]
  have hcase2 : x ≤ -1 → sampleToI16 x = -32767 := by
    intro hx
    have hcl : clampQ x = -1 := by
      rw [clampQ, max_eq_right hx, min_eq_left (by norm_num : (-1 : ℚ) ≤ 1)]
    show ratTrunc (clampQ x * 32767) = -32767
    rw [hcl]
    norm_num [ratTrunc, Int.ceil_neg]
  by_cases h0 : 0 ≤ clampQ x * 32767
  · have hst : sampleToI16 x = ⌊clampQ x * 32767⌋ := by
      rw [sampleToI16, ratTrunc, if_pos h0]
    have hf0 : 0 ≤ ⌊clampQ x * 32767⌋ := Int.floor_nonneg.mpr h0
    have hf1 : (⌊clampQ x * 32767⌋ : ℚ) ≤ clampQ x * 32767 := Int.floor_le _
    have hf2 : clampQ x * 32767 < ⌊clampQ x * 32767⌋ + 1 := Int.lt_floor_add_one _
    have hub : ⌊clampQ x * 32767⌋ ≤ 32767 := by exact_mod_cast le_trans hf1 hy1
    refine ⟨⟨hst ▸ (show (-32767 : ℤ) ≤ ⌊clampQ x * 32767⌋ by omega), hst ▸ hub⟩,
      hcase1, hcase2, ?_, ?_⟩
    · rw [hst, abs_sub_lt_iff]
      constructor <;> linarith
    · rw [hst,
        abs_of_nonneg (by exact_mod_cast hf0 : (0 : ℚ) ≤ (⌊clampQ x * 32767⌋ : ℚ)),
        abs_of_nonneg h0]
      exact hf1
  · push_neg at h0
    have hst : sampleToI16 x = ⌈clampQ x * 32767⌉ := by
      rw [sampleToI16, ratTrunc, if_neg (not_le.mpr h0)]
    have hc0 : ⌈clampQ x * 32767⌉ ≤ 0 := Int.ceil_le.mpr (by push_cast; linarith)
    have hc1 : clampQ x * 32767 ≤ (⌈clampQ x * 32767⌉ : ℚ) := Int.le_ceil _
    have hc2 : (⌈clampQ x * 32767⌉ : ℚ) < clampQ x * 32767 + 1 := Int.ceil_lt_add_one _
    have hlb : -32767 ≤ ⌈clampQ x * 32767⌉ := by exact_mod_cast le_trans hy2 hc1
    refine ⟨⟨hst ▸ hlb, hst ▸ le_trans hc0 (by norm_num)⟩, hcase1, hcase2, ?_, ?_⟩
    · rw [hst, abs_sub_lt_iff]
      constructor <;> linarith
    · rw [hst,
        abs_of_nonpos (by exact_mod_cast hc0 : (⌈clampQ x * 32767⌉ : ℚ) ≤ 0),
        abs_of_nonpos (le_of_lt h0)]
      linarith

/-- C4 witness: the clamping clause of the truncation theorem applied at the
concrete out-of-range input 2. -/
theorem sampleToI16_clamp_truncate_witness :
    (1 : ℚ) ≤ 2 ∧ sampleToI16 2 = 32767 :=
  ⟨one_le_two, (sampleToI16_clamp_truncate 2).2.1 one_le_two⟩

/-- C4 counterexample: at input 1/4 (exactly representable in `f32`, with an
exactly representable product 8191.75) the source conversion truncates to
8191 while the nearest signed 16-bit integer after scaling is 8192. -/
theorem sampleToI16_not_nearest_at_quarter :
    sampleToI16 (1/4) = 8191 ∧ specNearestI16 (1/4) = 8192 ∧ (8191 : ℤ) ≠ 8192 := by
  refine ⟨?_, ?_, by decide⟩
  · norm_num [sampleToI16, ratTrunc, clampQ, min_def, max_def]
  · norm_num [specNearestI16, clampQ, min_def, max_def, round_eq]
